import Mathlib

/-!
Verification of the weekly-reset boss-tracking, drop-rate aggregation and
XP-progression core of the `maplestuff` backend, as a shallow embedding in
Lean 4.

Conventions of the embedding:
* Python `date` values are proleptic-Gregorian ordinals (`ℤ`, as returned by
  `date.toordinal()`; ordinal 1 = 0001-01-01, a Monday), so
  `date.weekday()` (Monday = 0) is `(d - 1) % 7`.
* Python `datetime` values are a date ordinal plus a time-of-day component.
* Python `Decimal` arithmetic is modelled by `ℚ` (all operations the code
  performs — multiplication, subtraction, division by powers of ten — are
  exact at the magnitudes involved).
* Database tables are lists of row structures; a request handler is a
  function from the table state and request data to `Except` of an error
  (an HTTPException, which rolls the transaction back, leaving state
  unchanged) or the new state.
-/

/-! ## Temporal reset calculator (`app/schemas/boss_run.py`) -/

/-- Python `date.weekday()`: Monday = 0, …, Thursday = 3, Sunday = 6,
for a proleptic-Gregorian ordinal. -/
def weekday (d : ℤ) : ℤ := (d - 1) % 7

/-- A Python `datetime`: a calendar date (ordinal) plus a time of day
(seconds since midnight, irrelevant to date extraction). -/
structure PyDatetime where
  date : ℤ
  secondsOfDay : ℕ
deriving DecidableEq, Repr

/-- The `datetime | date` union accepted by `get_week_start_for_date`. -/
inductive DateOrDatetime where
  | date (d : ℤ)
  | datetime (t : PyDatetime)
deriving DecidableEq, Repr

/-- The `isinstance(dt, datetime)` branch: a datetime is truncated to its
calendar date, a date is taken as is. -/
def DateOrDatetime.toDate : DateOrDatetime → ℤ
  | .date d => d
  | .datetime t => t.date

/-- `get_week_start_for_date` (`boss_run.py` lines 25–32): the most recent
Thursday on or before the given date, via
`days_since_thursday = (dt.weekday() - 3) % 7` and
`dt - timedelta(days=days_since_thursday)`. -/
def get_week_start_for_date (dt : DateOrDatetime) : ℤ :=
  dt.toDate - (weekday dt.toDate - 3) % 7

/-- `get_current_week_start` (`boss_run.py` lines 12–22): the week start of
"now", computed from the current UTC datetime's calendar date by the same
formula. -/
def get_current_week_start (now : PyDatetime) : ℤ :=
  now.date - (weekday now.date - 3) % 7

/-- Two timestamps fall in the same reset week when one Thursday-started
seven-day window contains both calendar dates. -/
def sameResetWeek (t₁ t₂ : PyDatetime) : Prop :=
  ∃ th : ℤ, weekday th = 3 ∧
    th ≤ t₁.date ∧ t₁.date < th + 7 ∧ th ≤ t₂.date ∧ t₂.date < th + 7

/-! ## XP table service (`app/services/xp_table.py`) -/

/-- A `{'actual', 'billions', 'trillions'}` dict of `Decimal`s, as returned
by `get_xp_for_level`, `calculate_xp_gained` and `get_epic_dungeon_xp`. -/
structure XPAmounts where
  actual : ℚ
  billions : ℚ
  trillions : ℚ
deriving DecidableEq, Repr

/-- The per-level XP requirement table, loaded at runtime from
`Xp/XP_Table.csv` (a data file outside the backend source); modelled as an
abstract partial map from level to its row. -/
def XPTable : Type := ℕ → Option XPAmounts

/-- `get_xp_for_level`: table lookup; `none` models the `ValueError`
raised when the level is absent. -/
def get_xp_for_level (table : XPTable) (level : ℕ) : Option XPAmounts :=
  table level

/-- `calculate_xp_gained` (`xp_table.py` lines 59–71):
`xp_gained_actual = xp_required * (new_percent - old_percent) / 100`, also
returned divided by 10^9 (billions) and 10^12 (trillions). -/
def calculate_xp_gained (table : XPTable) (level : ℕ)
    (old_percent new_percent : ℚ) : Option XPAmounts :=
  match get_xp_for_level table level with
  | none => none
  | some xp_data =>
      let xp_gained_actual := xp_data.actual * (new_percent - old_percent) / 100
      some { actual := xp_gained_actual
             billions := xp_gained_actual / 1000000000
             trillions := xp_gained_actual / 1000000000000 }

/-! ## Epic Dungeon service (`app/services/epic_dungeon.py`) -/

/-- `EPIC_DUNGEON_XP`: the static base-XP-in-billions table (levels
260–267 and 270–294). -/
def EPIC_DUNGEON_XP (level : ℕ) : Option ℚ :=
  match level with
  | 260 => some (194.6 : ℚ)
  | 261 => some (197.4 : ℚ)
  | 262 => some (200.2 : ℚ)
  | 263 => some (203.0 : ℚ)
  | 264 => some (206.2 : ℚ)
  | 265 => some (232.0 : ℚ)
  | 266 => some (235.2 : ℚ)
  | 267 => some (238.4 : ℚ)
  | 270 => some (384.75 : ℚ)
  | 271 => some (403.05 : ℚ)
  | 272 => some (408.15 : ℚ)
  | 273 => some (430.65 : ℚ)
  | 274 => some (436.95 : ℚ)
  | 275 => some (491.10 : ℚ)
  | 276 => some (497.25 : ℚ)
  | 277 => some (504.30 : ℚ)
  | 278 => some (510.45 : ℚ)
  | 279 => some (517.50 : ℚ)
  | 280 => some (581.25 : ℚ)
  | 281 => some (589.20 : ℚ)
  | 282 => some (596.25 : ℚ)
  | 283 => some (604.20 : ℚ)
  | 284 => some (611.40 : ℚ)
  | 285 => some (687.30 : ℚ)
  | 286 => some (695.25 : ℚ)
  | 287 => some (704.25 : ℚ)
  | 288 => some (713.40 : ℚ)
  | 289 => some (721.50 : ℚ)
  | 290 => some (810.75 : ℚ)
  | 291 => some (819.90 : ℚ)
  | 292 => some (830.10 : ℚ)
  | 293 => some (840.45 : ℚ)
  | 294 => some (849.60 : ℚ)
  | _ => none

/-- `get_epic_dungeon_xp`: base value scaled by the effective multiplier
(4 → 5, 8 → 9, otherwise the multiplier itself); `None` when the level has
no table entry. -/
def get_epic_dungeon_xp (level : ℕ) (multiplier : ℕ) : Option XPAmounts :=
  match EPIC_DUNGEON_XP level with
  | none => none
  | some base_xp_billions =>
      let total_multiplier : ℚ :=
        if multiplier = 4 then 5 else if multiplier = 8 then 9 else (multiplier : ℚ)
      let xp_billions := base_xp_billions * total_multiplier
      some { actual := xp_billions * 1000000000
             billions := xp_billions
             trillions := xp_billions / 1000 }

/-! ## XP entry router (`app/routers/xp.py`) -/

/-- A row of the `xp_entries` table (`app/models/xp_entry.py`), with the
fields the router reads and writes, holding the values the handler
computes. The database columns are `Numeric(5, 2)` for the percents,
`Numeric(20, 2)` for the billions columns and `Numeric(20, 6)` for the
trillions columns, so committing a row quantizes it per
`storeXPEntryRow` below; the stored row is what `db.refresh` reads
back. -/
structure XPEntryRow where
  entry_date : ℤ
  level : ℕ
  old_percent : ℚ
  new_percent : ℚ
  xp_gained_trillions : ℚ
  xp_gained_billions : ℚ
  epic_dungeon : Bool
  epic_dungeon_xp_trillions : Option ℚ
  epic_dungeon_xp_billions : Option ℚ
  epic_dungeon_multiplier : ℕ
  total_daily_xp_trillions : ℚ
  total_daily_xp_billions : ℚ
deriving DecidableEq, Repr

/-- The `XPEntryCreate` request schema. -/
structure XPEntryCreate where
  entry_date : ℤ
  level : ℕ
  old_percent : ℚ
  new_percent : ℚ
  epic_dungeon : Bool
  epic_dungeon_multiplier : ℕ
deriving DecidableEq, Repr

/-- The `XPEntryUpdate` request schema: every field optional. -/
structure XPEntryUpdate where
  level : Option ℕ
  old_percent : Option ℚ
  new_percent : Option ℚ
  epic_dungeon : Option Bool
  epic_dungeon_multiplier : Option ℕ
deriving DecidableEq, Repr

/-- The errors an XP-entry write can raise: the three `HTTPException(400)`s
of the router, plus the `ValueError` that `get_xp_for_level` raises for a
level outside the table (which surfaces as a server error, not a client
one). -/
inductive XPWriteError where
  | percentNotIncreasing
  | levelNotInTable
  | epicDungeonUnavailable
  | duplicateDate
deriving DecidableEq, Repr

/-- Python truthiness of an `Optional[int]` (as used in
`any([data.level, …])`): `None` and `0` are falsy. -/
def truthyNat (o : Option ℕ) : Bool :=
  match o with
  | some n => n ≠ 0
  | none => false

/-- Python truthiness of an `Optional[Decimal]`: `None` and `0` are
falsy. -/
def truthyRat (o : Option ℚ) : Bool :=
  match o with
  | some q => q ≠ 0
  | none => false

/-- `create_xp_entry` (`xp.py` lines 31–107): validates the percent pair,
computes the gained XP (failing for a level outside the table), resolves
the Epic Dungeon bonus when flagged (400 if unavailable), rejects a
duplicate entry date, and assembles the stored row with both magnitude
units and totals. -/
def create_xp_entry (table : XPTable) (data : XPEntryCreate)
    (existing_dates : List ℤ) : Except XPWriteError XPEntryRow :=
  if data.new_percent ≤ data.old_percent then .error .percentNotIncreasing
  else
    match calculate_xp_gained table data.level data.old_percent data.new_percent with
    | none => .error .levelNotInTable
    | some xp_gained =>
        let epicRes : Except XPWriteError (Option ℚ × Option ℚ) :=
          if data.epic_dungeon then
            match get_epic_dungeon_xp data.level data.epic_dungeon_multiplier with
            | some epic_xp => .ok (some epic_xp.trillions, some epic_xp.billions)
            | none => .error .epicDungeonUnavailable
          else .ok (none, none)
        match epicRes with
        | .error e => .error e
        | .ok (epic_t, epic_b) =>
            if data.entry_date ∈ existing_dates then .error .duplicateDate
            else
              .ok { entry_date := data.entry_date
                    level := data.level
                    old_percent := data.old_percent
                    new_percent := data.new_percent
                    xp_gained_trillions := xp_gained.trillions
                    xp_gained_billions := xp_gained.billions
                    epic_dungeon := data.epic_dungeon
                    epic_dungeon_xp_trillions := epic_t
                    epic_dungeon_xp_billions := epic_b
                    epic_dungeon_multiplier := data.epic_dungeon_multiplier
                    total_daily_xp_trillions := xp_gained.trillions + epic_t.getD 0
                    total_daily_xp_billions := xp_gained.billions + epic_b.getD 0 }

/-- `update_xp_entry` (`xp.py` lines 206–264): applies the non-`None`
request fields, recomputes the gained XP only when
`any([data.level, data.old_percent, data.new_percent])` is truthy, then —
with no percent validation — recomputes the Epic Dungeon bonus (silently
setting both bonus columns to `None` when the level has no bonus entry) and
the totals. -/
def update_xp_entry (table : XPTable) (entry : XPEntryRow)
    (data : XPEntryUpdate) : Except XPWriteError XPEntryRow :=
  let e1 : XPEntryRow :=
    { entry with
      level := data.level.getD entry.level
      old_percent := data.old_percent.getD entry.old_percent
      new_percent := data.new_percent.getD entry.new_percent
      epic_dungeon := data.epic_dungeon.getD entry.epic_dungeon
      epic_dungeon_multiplier :=
        data.epic_dungeon_multiplier.getD entry.epic_dungeon_multiplier }
  let gainedRes : Except XPWriteError (ℚ × ℚ) :=
    if truthyNat data.level || truthyRat data.old_percent || truthyRat data.new_percent then
      match calculate_xp_gained table e1.level e1.old_percent e1.new_percent with
      | none => .error .levelNotInTable
      | some xp_gained => .ok (xp_gained.trillions, xp_gained.billions)
    else .ok (entry.xp_gained_trillions, entry.xp_gained_billions)
  match gainedRes with
  | .error e => .error e
  | .ok (gained_t, gained_b) =>
      let epicPair : Option ℚ × Option ℚ :=
        if e1.epic_dungeon then
          match get_epic_dungeon_xp e1.level e1.epic_dungeon_multiplier with
          | some epic_xp => (some epic_xp.trillions, some epic_xp.billions)
          | none => (none, none)
        else (entry.epic_dungeon_xp_trillions, entry.epic_dungeon_xp_billions)
      .ok { e1 with
            xp_gained_trillions := gained_t
            xp_gained_billions := gained_b
            epic_dungeon_xp_trillions := epicPair.1
            epic_dungeon_xp_billions := epicPair.2
            total_daily_xp_trillions := gained_t + epicPair.1.getD 0
            total_daily_xp_billions := gained_b + epicPair.2.getD 0 }

/-! ## Boss tracking (`app/routers/tracking.py`, `app/models`) -/

/-- A `characters` row, reduced to the columns the tracking router
consults. -/
structure Character where
  id : ℕ
  user_id : ℕ
deriving DecidableEq, Repr

/-- A `bosses` row, reduced to the columns `create_boss_run` consults. -/
structure Boss where
  id : ℕ
  reset_type : String
deriving DecidableEq, Repr

/-- An `items` row (only the id matters to run creation). -/
structure Item where
  id : ℕ
deriving DecidableEq, Repr

/-- A `boss_runs` row. -/
structure BossRunRow where
  id : ℕ
  character_id : ℕ
  boss_id : ℕ
  cleared_at : PyDatetime
  week_start : ℤ
  party_size : ℕ
  notes : Option String
  is_clear : Bool
deriving DecidableEq, Repr

/-- A `boss_run_drops` row. -/
structure BossRunDropRow where
  boss_run_id : ℕ
  item_id : ℕ
  quantity : ℕ
deriving DecidableEq, Repr

/-- The `BossRunCreate` request schema. -/
structure BossRunCreate where
  boss_id : ℕ
  character_id : ℕ
  cleared_at : Option PyDatetime
  party_size : ℕ
  notes : Option String
  is_clear : Bool
  drop_item_ids : List ℕ
deriving DecidableEq, Repr

/-- The tables `create_boss_run` reads and writes, plus the id the next
inserted run receives. -/
structure TrackingState where
  characters : List Character
  bosses : List Boss
  items : List Item
  runs : List BossRunRow
  drops : List BossRunDropRow
  next_run_id : ℕ
deriving DecidableEq, Repr

/-- The `HTTPException`s `create_boss_run` can raise (404, 404, 409). -/
inductive RunError where
  | characterNotFound
  | bossNotFound
  | weeklyConflict
deriving DecidableEq, Repr

/-- `create_boss_run` (`tracking.py` lines 32–143): verifies character
ownership and boss existence, resolves `cleared_at` (defaulting to now) and
its week start, raises 409 when the boss is weekly and a successful clear
for the same (character, boss, week_start) already exists, then inserts the
run and one quantity-1 drop row per drop item id that exists in `items`
(unknown ids are skipped). An error models the raised `HTTPException`: the
transaction is never committed, so the state is unchanged. -/
def create_boss_run (st : TrackingState) (current_user_id : ℕ)
    (run_data : BossRunCreate) (now : PyDatetime) : Except RunError TrackingState :=
  match st.characters.find? (fun c =>
      c.id == run_data.character_id && c.user_id == current_user_id) with
  | none => .error .characterNotFound
  | some _ =>
      match st.bosses.find? (fun b => b.id == run_data.boss_id) with
      | none => .error .bossNotFound
      | some boss =>
          let cleared_at := run_data.cleared_at.getD now
          let week_start := get_week_start_for_date (.datetime cleared_at)
          if boss.reset_type == "weekly" &&
              st.runs.any (fun r =>
                r.character_id == run_data.character_id &&
                r.boss_id == run_data.boss_id &&
                r.week_start == week_start &&
                r.is_clear) then
            .error .weeklyConflict
          else
            let boss_run : BossRunRow :=
              { id := st.next_run_id
                character_id := run_data.character_id
                boss_id := run_data.boss_id
                cleared_at := cleared_at
                week_start := week_start
                party_size := run_data.party_size
                notes := run_data.notes
                is_clear := run_data.is_clear }
            let new_drops : List BossRunDropRow :=
              (run_data.drop_item_ids.filter (fun item_id =>
                  st.items.any (fun it => it.id == item_id))).map
                (fun item_id =>
                  { boss_run_id := boss_run.id, item_id := item_id, quantity := 1 })
            .ok { st with
                  runs := st.runs ++ [boss_run]
                  drops := st.drops ++ new_drops
                  next_run_id := st.next_run_id + 1 }

/-! ## Drop-rate aggregator (`app/routers/stats.py`) -/

/-- A `boss_drop_table` row (the guaranteed-drop flag plays no role in the
aggregator). -/
structure BossDropTableEntry where
  boss_id : ℕ
  item_id : ℕ
deriving DecidableEq, Repr

/-- A `drop_rate_stats` row. The model docstring documents `drop_rate` as
"Computed drop rate (0.0 to 1.0)" (`drop_rate_stats.py` line 46). -/
structure DropRateStatsRow where
  boss_id : ℕ
  item_id : ℕ
  sample_size : ℕ
  drop_count : ℕ
  drop_rate : ℚ
  last_computed : ℤ
deriving DecidableEq, Repr

/-- The tables `compute_drop_rates` reads and writes. -/
structure StatsState where
  drop_table : List BossDropTableEntry
  runs : List BossRunRow
  drops : List BossRunDropRow
  stats : List DropRateStatsRow
deriving DecidableEq, Repr

/-- The sample-size query (`stats.py` lines 263–268): count of `boss_runs`
rows with the given boss id and `is_clear = true`. -/
def sampleSizeFor (runs : List BossRunRow) (boss_id : ℕ) : ℕ :=
  (runs.filter (fun r => r.boss_id == boss_id && r.is_clear)).length

/-- The drop-count query (`stats.py` lines 271–280): count of
`boss_run_drops` rows with the given item id whose parent run (joined on
`boss_run_id = boss_runs.id`; run ids are the primary key, hence unique)
has the given boss id — with no `is_clear` filter. -/
def dropCountFor (runs : List BossRunRow) (drops : List BossRunDropRow)
    (boss_id item_id : ℕ) : ℕ :=
  (drops.filter (fun d =>
    d.item_id == item_id &&
    runs.any (fun r => r.id == d.boss_run_id && r.boss_id == boss_id))).length

/-- Whether a stats row belongs to the (boss, item) pair. -/
def statMatches (boss_id item_id : ℕ) (s : DropRateStatsRow) : Bool :=
  s.boss_id == boss_id && s.item_id == item_id

/-- The per-pair upsert (`stats.py` lines 286–307): update the existing row
in place if one exists, else insert a new one. `scalar_one_or_none`
together with the `uq_drop_rate_stats_boss_item` unique constraint
guarantees at most one existing row; the map touches exactly that row. -/
def upsertStat (stats : List DropRateStatsRow) (boss_id item_id : ℕ)
    (sample_size drop_count : ℕ) (drop_rate : ℚ) (now : ℤ) :
    List DropRateStatsRow :=
  if stats.any (statMatches boss_id item_id) then
    stats.map (fun s =>
      if statMatches boss_id item_id s then
        { s with
          sample_size := sample_size
          drop_count := drop_count
          drop_rate := drop_rate
          last_computed := now }
      else s)
  else
    stats ++ [{ boss_id := boss_id, item_id := item_id,
                sample_size := sample_size, drop_count := drop_count,
                drop_rate := drop_rate, last_computed := now }]

/-- One iteration of the aggregation loop for one drop-table entry. -/
def computeStep (runs : List BossRunRow) (drops : List BossRunDropRow)
    (now : ℤ) (stats : List DropRateStatsRow) (entry : BossDropTableEntry) :
    List DropRateStatsRow :=
  let sample_size := sampleSizeFor runs entry.boss_id
  let drop_count := dropCountFor runs drops entry.boss_id entry.item_id
  let drop_rate : ℚ :=
    if sample_size > 0 then (drop_count : ℚ) / (sample_size : ℚ) else 0
  upsertStat stats entry.boss_id entry.item_id sample_size drop_count drop_rate now

/-- `compute_drop_rates` (`stats.py` lines 246–317): for every
`boss_drop_table` entry in order, recompute sample size, drop count and
rate, and upsert the stats row, stamping `last_computed := now`. Only the
stats table changes. -/
def compute_drop_rates (st : StatsState) (now : ℤ) : StatsState :=
  { st with stats := st.drop_table.foldl (computeStep st.runs st.drops now) st.stats }

/-- The canonical stats row the aggregator produces for a pair. -/
def computedStat (runs : List BossRunRow) (drops : List BossRunDropRow)
    (now : ℤ) (boss_id item_id : ℕ) : DropRateStatsRow :=
  { boss_id := boss_id
    item_id := item_id
    sample_size := sampleSizeFor runs boss_id
    drop_count := dropCountFor runs drops boss_id item_id
    drop_rate :=
      if sampleSizeFor runs boss_id > 0 then
        (dropCountFor runs drops boss_id item_id : ℚ) / (sampleSizeFor runs boss_id : ℚ)
      else 0
    last_computed := now }

/-- The value columns of a stats row: everything except `last_computed`. -/
def statValues (s : DropRateStatsRow) : ℕ × ℕ × ℕ × ℕ × ℚ :=
  (s.boss_id, s.item_id, s.sample_size, s.drop_count, s.drop_rate)

/-- The `uq_drop_rate_stats_boss_item` unique constraint
(`drop_rate_stats.py` lines 21–23): at most one stats row per
(boss, item) pair. -/
def statsUniquePerPair (stats : List DropRateStatsRow) : Prop :=
  ∀ boss_id item_id : ℕ, stats.countP (statMatches boss_id item_id) ≤ 1

/-! ## Dual-unit consistency invariant (spec §3/§4.5) -/

/-- A one-level XP table: level 250 requires exactly 500,000,000,000 XP
(the scenario of spec §8). -/
def testTable : XPTable := fun level =>
  if level = 250 then some ⟨500000000000, 500, 1/2⟩ else none

/-- A stored entry at level 250 (10% → 20%, no bonus), as `create_xp_entry`
produces it. -/
def c6Entry : XPEntryRow :=
  { entry_date := 0, level := 250, old_percent := 10, new_percent := 20
    xp_gained_trillions := 1/20, xp_gained_billions := 50
    epic_dungeon := false
    epic_dungeon_xp_trillions := none, epic_dungeon_xp_billions := none
    epic_dungeon_multiplier := 1
    total_daily_xp_trillions := 1/20, total_daily_xp_billions := 50 }

/-- An update request lowering `new_percent` to 5, below the stored
`old_percent` of 10. -/
def c6Update : XPEntryUpdate :=
  { level := none, old_percent := none, new_percent := some 5
    epic_dungeon := none, epic_dungeon_multiplier := none }

/-- The row `update_xp_entry` persists for `c6Update`: the non-increasing
pair (10, 5) with a negative gained XP. -/
def c6Result : XPEntryRow :=
  { entry_date := 0, level := 250, old_percent := 10, new_percent := 5
    xp_gained_trillions := -(1/40), xp_gained_billions := -25
    epic_dungeon := false
    epic_dungeon_xp_trillions := none, epic_dungeon_xp_billions := none
    epic_dungeon_multiplier := 1
    total_daily_xp_trillions := -(1/40), total_daily_xp_billions := -25 }

/-- A create request with an equal (hence non-increasing) percent pair. -/
def c6CreateData : XPEntryCreate :=
  { entry_date := 0, level := 250, old_percent := 50, new_percent := 50
    epic_dungeon := false, epic_dungeon_multiplier := 1 }

/-- A stored entry at level 260 with the Epic Dungeon bonus present
(base 194.6 billion = 973/5; trillions 973/5000). -/
def c7Entry : XPEntryRow :=
  { entry_date := 0, level := 260, old_percent := 10, new_percent := 20
    xp_gained_trillions := 1/20, xp_gained_billions := 50
    epic_dungeon := true
    epic_dungeon_xp_trillions := some (973/5000)
    epic_dungeon_xp_billions := some (973/5)
    epic_dungeon_multiplier := 1
    total_daily_xp_trillions := 1223/5000, total_daily_xp_billions := 1223/5 }

/-- An update request moving the entry to level 250, which has no Epic
Dungeon table entry. -/
def c7Update : XPEntryUpdate :=
  { level := some 250, old_percent := none, new_percent := none
    epic_dungeon := none, epic_dungeon_multiplier := none }

/-- The row `update_xp_entry` persists for `c7Update`: the bonus columns
silently cleared to `None` while the flag stays set. -/
def c7Result : XPEntryRow :=
  { entry_date := 0, level := 250, old_percent := 10, new_percent := 20
    xp_gained_trillions := 1/20, xp_gained_billions := 50
    epic_dungeon := true
    epic_dungeon_xp_trillions := none, epic_dungeon_xp_billions := none
    epic_dungeon_multiplier := 1
    total_daily_xp_trillions := 1/20, total_daily_xp_billions := 50 }

/-- A create request flagging the Epic Dungeon bonus at level 250, outside
the bonus table. -/
def c7CreateData : XPEntryCreate :=
  { entry_date := 0, level := 250, old_percent := 10, new_percent := 20
    epic_dungeon := true, epic_dungeon_multiplier := 1 }

/-- Tracking state: user 7 owns character 1; weekly boss 1; item 100; one
successful clear of boss 1 by character 1 in the week starting at ordinal 4
(a Thursday). -/
def c2State : TrackingState :=
  { characters := [⟨1, 7⟩]
    bosses := [⟨1, "weekly"⟩]
    items := [⟨100⟩]
    runs := [{ id := 1, character_id := 1, boss_id := 1, cleared_at := ⟨4, 0⟩
               week_start := 4, party_size := 1, notes := none, is_clear := true }]
    drops := []
    next_run_id := 2 }

/-- A request logging an *unsuccessful* attempt (`is_clear = false`) on the
same boss, character and week as the existing clear. -/
def c2Request : BossRunCreate :=
  { boss_id := 1, character_id := 1, cleared_at := some ⟨5, 3600⟩
    party_size := 1, notes := none, is_clear := false, drop_item_ids := [] }

/-- The same request logged as a successful clear. -/
def c2RequestClear : BossRunCreate :=
  { boss_id := 1, character_id := 1, cleared_at := some ⟨5, 3600⟩
    party_size := 1, notes := none, is_clear := true, drop_item_ids := [] }

/-- Tracking state with no prior runs, for the drop-skipping witness. -/
def c8State : TrackingState :=
  { characters := [⟨1, 7⟩]
    bosses := [⟨1, "weekly"⟩]
    items := [⟨100⟩]
    runs := []
    drops := []
    next_run_id := 1 }

/-- A run request listing one valid drop item id (100) and one unknown one
(999). -/
def c8Request : BossRunCreate :=
  { boss_id := 1, character_id := 1, cleared_at := some ⟨4, 0⟩
    party_size := 1, notes := none, is_clear := true
    drop_item_ids := [100, 999] }

/-- Stats state for the over-unity rate: boss 1 drops item 1; one clear run
and one non-clear run, each with an item-1 drop. -/
def c10State : StatsState :=
  { drop_table := [⟨1, 1⟩]
    runs := [{ id := 1, character_id := 1, boss_id := 1, cleared_at := ⟨4, 0⟩
               week_start := 4, party_size := 1, notes := none, is_clear := true },
             { id := 2, character_id := 1, boss_id := 1, cleared_at := ⟨4, 3600⟩
               week_start := 4, party_size := 1, notes := none, is_clear := false }]
    drops := [⟨1, 1, 1⟩, ⟨2, 1, 1⟩]
    stats := [] }

/-! ## Column quantization of `xp_entries` (`app/models/xp_entry.py`) -/

/-- Rounding to the nearest integer, halves away from zero, as the
database rounds when coercing a value into a `Numeric(p, s)` column. -/
def pgRoundInt (q : ℚ) : ℤ :=
  if 0 ≤ q then ⌊q + 1/2⌋ else -⌊-q + 1/2⌋

/-- A value as stored by a `Numeric(p, s)` column: rounded to `s` decimal
places. -/
def quantize (scale : ℕ) (q : ℚ) : ℚ :=
  (pgRoundInt (q * 10 ^ scale) : ℚ) / 10 ^ scale

/-- Within a Thursday-started window, the computed week start is that
Thursday. -/
lemma get_week_start_eq_of_window (th d : ℤ) (hth : weekday th = 3)
    (h₁ : th ≤ d) (h₂ : d < th + 7) :
    get_week_start_for_date (.date d) = th := by
  simp only [get_week_start_for_date, DateOrDatetime.toDate, weekday] at *
  omega

/-- C1 -- `get_week_start_for_date` returns the most recent Thursday on or
before the argument's calendar date: the result is a Thursday, is ≤ the
date, dominates every Thursday ≤ the date, agrees across timestamps of the
same reset week, ignores the time of day, and is the date itself when the
date is a Thursday. -/
theorem c1_week_start_correct (t : PyDatetime) :
    weekday (get_week_start_for_date (.datetime t)) = 3 ∧
    get_week_start_for_date (.datetime t) ≤ t.date ∧
    (∀ e : ℤ, weekday e = 3 → e ≤ t.date →
      e ≤ get_week_start_for_date (.datetime t)) ∧
    (∀ t₂ : PyDatetime, sameResetWeek t t₂ →
      get_week_start_for_date (.datetime t) =
        get_week_start_for_date (.datetime t₂)) ∧
    (∀ t₂ : PyDatetime, t₂.date = t.date →
      get_week_start_for_date (.datetime t₂) =
        get_week_start_for_date (.datetime t)) ∧
    (weekday t.date = 3 → get_week_start_for_date (.datetime t) = t.date) := by
  refine ⟨?_, ?_, ?_, ?_, ?_, ?_⟩
  · simp only [get_week_start_for_date, DateOrDatetime.toDate, weekday]
    omega
  · simp only [get_week_start_for_date, DateOrDatetime.toDate, weekday]
    omega
  · intro e he hle
    simp only [get_week_start_for_date, DateOrDatetime.toDate, weekday] at *
    omega
  · rintro t₂ ⟨th, hth, h₁, h₂, h₃, h₄⟩
    have e₁ : get_week_start_for_date (.date t.date) = th :=
      get_week_start_eq_of_window th t.date hth h₁ h₂
    have e₂ : get_week_start_for_date (.date t₂.date) = th :=
      get_week_start_eq_of_window th t₂.date hth h₃ h₄
    simp only [get_week_start_for_date, DateOrDatetime.toDate] at *
    omega
  · intro t₂ h
    simp only [get_week_start_for_date, DateOrDatetime.toDate]
    rw [h]
  · intro h
    simp only [get_week_start_for_date, DateOrDatetime.toDate, weekday] at *
    omega

/-- Witness for C1: ordinal 4 (0001-01-04) is a Thursday; its week start is
itself, and ordinal 5 at any two times of day shares its week start. -/
theorem c1_week_start_correct_witness :
    weekday ((4 : ℤ)) = 3 ∧
    get_week_start_for_date (.datetime ⟨4, 0⟩) = 4 ∧
    get_week_start_for_date (.datetime ⟨5, 60⟩) =
      get_week_start_for_date (.datetime ⟨5, 7200⟩) := by
  refine ⟨by decide, (c1_week_start_correct ⟨4, 0⟩).2.2.2.2.2 (by decide), ?_⟩
  exact (c1_week_start_correct ⟨5, 60⟩).2.2.2.1 ⟨5, 7200⟩
    ⟨4, by decide, by decide, by decide, by decide, by decide⟩

/-- C5 -- for every level present in the XP table,
`calculate_xp_gained` returns exactly
`required_xp * (new_percent - old_percent) / 100`; it is total and returns
the zero amounts for equal percents, and returns the full requirement for
the pair (0, 100). -/
theorem c5_xp_gain_formula (table : XPTable) (level : ℕ) (d : XPAmounts)
    (h : table level = some d) :
    (∀ old_percent new_percent : ℚ,
      (calculate_xp_gained table level old_percent new_percent).map XPAmounts.actual =
        some (d.actual * (new_percent - old_percent) / 100)) ∧
    (∀ p : ℚ, calculate_xp_gained table level p p = some ⟨0, 0, 0⟩) ∧
    ((calculate_xp_gained table level 0 100).map XPAmounts.actual = some d.actual) := by
  refine ⟨?_, ?_, ?_⟩
  · intro old_percent new_percent
    simp [calculate_xp_gained, get_xp_for_level, h]
  · intro p
    simp [calculate_xp_gained, get_xp_for_level, h]
  · simp [calculate_xp_gained, get_xp_for_level, h]

/-- Witness for C5 at the spec §8 scenario: level 250 requiring exactly
500,000,000,000 XP; the pair (0, 100) yields the full requirement, and an
equal pair yields zero. -/
theorem c5_xp_gain_formula_witness :
    ((calculate_xp_gained testTable 250 0 100).map XPAmounts.actual =
      some ((500000000000 : ℚ))) ∧
    calculate_xp_gained testTable 250 (37/2) (37/2) = some ⟨0, 0, 0⟩ := by
  have h := c5_xp_gain_formula testTable 250 ⟨500000000000, 500, 1/2⟩ (by rfl)
  exact ⟨h.2.2, h.2.1 (37/2)⟩

/-- C6 counterexample -- the claim says every XP-entry write, update
included, rejects a non-increasing percent pair before any write; but
`update_xp_entry` performs no such validation: lowering `new_percent` to 5
against a stored `old_percent` of 10 succeeds and persists the pair
(10, 5) (with a negative gained XP). -/
theorem c6_percent_validation_counterexample :
    update_xp_entry testTable c6Entry c6Update = .ok c6Result ∧
    c6Result.new_percent ≤ c6Result.old_percent := by
  constructor
  · norm_num [update_xp_entry, testTable, c6Entry, c6Update, c6Result,
      calculate_xp_gained, get_xp_for_level, truthyNat, truthyRat]
  · norm_num [c6Result]

/-- C6 amended -- only `create_xp_entry` rejects a non-increasing percent
pair (with the 400 validation error, before any write); `update_xp_entry`
does not validate the pair and persists it as given. -/
theorem c6_percent_validation_amended :
    (∀ (table : XPTable) (data : XPEntryCreate) (existing_dates : List ℤ),
      data.new_percent ≤ data.old_percent →
      create_xp_entry table data existing_dates = .error .percentNotIncreasing) ∧
    ((update_xp_entry testTable c6Entry c6Update).toOption.map
        (fun r => (r.old_percent, r.new_percent)) = some (10, 5) ∧ (5 : ℚ) ≤ 10) := by
  refine ⟨?_, by norm_num [update_xp_entry, testTable, c6Entry, c6Update,
    calculate_xp_gained, get_xp_for_level, truthyNat, truthyRat,
    Except.toOption], by norm_num⟩
  intro table data existing_dates hle
  simp [create_xp_entry, hle]

/-- Witness for C6 amended: a create request with an equal percent pair is
rejected with the validation error. -/
theorem c6_percent_validation_amended_witness :
    create_xp_entry testTable c6CreateData [] = .error .percentNotIncreasing :=
  c6_percent_validation_amended.1 testTable c6CreateData [] (by norm_num [c6CreateData])

/-- C7 counterexample -- the claim says every XP-entry write with the
epic-dungeon flag set and a level absent from the bonus table fails with a
client error; but `update_xp_entry` moving a flagged entry to level 250
(absent from `EPIC_DUNGEON_XP`) succeeds and silently clears both bonus
columns to `None`. -/
theorem c7_epic_bonus_counterexample :
    update_xp_entry testTable c7Entry c7Update = .ok c7Result ∧
    c7Result.epic_dungeon = true ∧
    EPIC_DUNGEON_XP c7Result.level = none ∧
    c7Result.epic_dungeon_xp_trillions = none ∧
    c7Result.epic_dungeon_xp_billions = none := by
  refine ⟨?_, by rfl, by rfl, by rfl, by rfl⟩
  norm_num [update_xp_entry, testTable, c7Entry, c7Update, c7Result,
    calculate_xp_gained, get_xp_for_level, get_epic_dungeon_xp, EPIC_DUNGEON_XP,
    truthyNat, truthyRat]

/-- C7 amended -- `create_xp_entry` fails with the explicit 400 error when
the flag is set and the level has no bonus-table entry; `update_xp_entry`
instead silently sets both bonus columns to `None` and succeeds. -/
theorem c7_epic_bonus_amended :
    (∀ (table : XPTable) (data : XPEntryCreate) (existing_dates : List ℤ)
       (g : XPAmounts),
      data.epic_dungeon = true →
      get_epic_dungeon_xp data.level data.epic_dungeon_multiplier = none →
      data.old_percent < data.new_percent →
      calculate_xp_gained table data.level data.old_percent data.new_percent = some g →
      create_xp_entry table data existing_dates = .error .epicDungeonUnavailable) ∧
    ((update_xp_entry testTable c7Entry c7Update).toOption.map
        (fun r => (r.epic_dungeon, r.epic_dungeon_xp_trillions, r.epic_dungeon_xp_billions)) =
      some (true, none, none)) := by
  refine ⟨?_, by norm_num [update_xp_entry, testTable, c7Entry, c7Update,
    calculate_xp_gained, get_xp_for_level, get_epic_dungeon_xp, EPIC_DUNGEON_XP,
    truthyNat, truthyRat, Except.toOption]⟩
  intro table data existing_dates g hflag hepic hlt hcalc
  simp [create_xp_entry, not_le.mpr hlt, hcalc, hflag, hepic]

/-- Witness for C7 amended: creating a flagged entry at level 250 (outside
the bonus table) fails with the explicit error. -/
theorem c7_epic_bonus_amended_witness :
    create_xp_entry testTable c7CreateData [] = .error .epicDungeonUnavailable :=
  c7_epic_bonus_amended.1 testTable c7CreateData [] ⟨50000000000, 50, 1/20⟩
    (by rfl) (by rfl) (by norm_num [c7CreateData])
    (by norm_num [calculate_xp_gained, get_xp_for_level, testTable, c7CreateData])

/-- C2 counterexample -- the claim says an `is_clear = false` request for
the same (character, boss, week) succeeds regardless of prior successful
clears; but the conflict check in `create_boss_run` is not conditioned on
the new run's `is_clear`, so the unsuccessful attempt is also rejected with
409. -/
theorem c2_weekly_conflict_counterexample :
    c2Request.is_clear = false ∧
    create_boss_run c2State 7 c2Request ⟨5, 0⟩ = .error .weeklyConflict := by
  constructor
  · rfl
  · rfl

/-- C2 amended -- for a weekly boss, whenever a successful clear for the
same (character, boss, week_start) already exists, `create_boss_run`
fails with 409 (inserting nothing) regardless of the new request's
`is_clear` flag; the existing-row check itself filters on
`is_clear = true`. -/
theorem c2_weekly_conflict_amended :
    ∀ (st : TrackingState) (current_user_id : ℕ) (run_data : BossRunCreate)
      (now : PyDatetime) (ch : Character) (boss : Boss),
      st.characters.find? (fun c =>
        c.id == run_data.character_id && c.user_id == current_user_id) = some ch →
      st.bosses.find? (fun b => b.id == run_data.boss_id) = some boss →
      boss.reset_type = "weekly" →
      st.runs.any (fun r =>
        r.character_id == run_data.character_id &&
        r.boss_id == run_data.boss_id &&
        r.week_start == get_week_start_for_date
          (.datetime (run_data.cleared_at.getD now)) &&
        r.is_clear) = true →
      create_boss_run st current_user_id run_data now = .error .weeklyConflict := by
  intro st current_user_id run_data now ch boss hch hboss hreset hany
  simp [create_boss_run, hch, hboss, hreset, hany]

/-- Witness for C2 amended: the duplicate *successful* clear request is
rejected with 409. -/
theorem c2_weekly_conflict_amended_witness :
    create_boss_run c2State 7 c2RequestClear ⟨5, 0⟩ = .error .weeklyConflict :=
  c2_weekly_conflict_amended c2State 7 c2RequestClear ⟨5, 0⟩ ⟨1, 7⟩ ⟨1, "weekly"⟩
    rfl rfl rfl rfl

/-- C8 -- when the character is owned, the boss exists and no weekly
conflict fires, `create_boss_run` succeeds: the run row is inserted and
exactly one quantity-1 drop row is added per drop item id that exists in
`items`, the unknown ids being silently skipped with no error. -/
theorem c8_invalid_drops_skipped :
    ∀ (st : TrackingState) (current_user_id : ℕ) (run_data : BossRunCreate)
      (now : PyDatetime) (ch : Character) (boss : Boss),
      st.characters.find? (fun c =>
        c.id == run_data.character_id && c.user_id == current_user_id) = some ch →
      st.bosses.find? (fun b => b.id == run_data.boss_id) = some boss →
      (boss.reset_type == "weekly" &&
        st.runs.any (fun r =>
          r.character_id == run_data.character_id &&
          r.boss_id == run_data.boss_id &&
          r.week_start == get_week_start_for_date
            (.datetime (run_data.cleared_at.getD now)) &&
          r.is_clear)) = false →
      create_boss_run st current_user_id run_data now =
        .ok { st with
              runs := st.runs ++
                [{ id := st.next_run_id
                   character_id := run_data.character_id
                   boss_id := run_data.boss_id
                   cleared_at := run_data.cleared_at.getD now
                   week_start := get_week_start_for_date
                     (.datetime (run_data.cleared_at.getD now))
                   party_size := run_data.party_size
                   notes := run_data.notes
                   is_clear := run_data.is_clear }]
              drops := st.drops ++
                (run_data.drop_item_ids.filter (fun item_id =>
                    st.items.any (fun it => it.id == item_id))).map
                  (fun item_id =>
                    { boss_run_id := st.next_run_id, item_id := item_id,
                      quantity := 1 })
              next_run_id := st.next_run_id + 1 } := by
  intro st current_user_id run_data now ch boss hch hboss hguard
  simp [create_boss_run, hch, hboss, hguard]

/-- Witness for C8: logging a run with drop ids [100, 999] where only item
100 exists succeeds and records exactly the single drop row for item
100. -/
theorem c8_invalid_drops_skipped_witness :
    create_boss_run c8State 7 c8Request ⟨4, 0⟩ =
      .ok { characters := [⟨1, 7⟩]
            bosses := [⟨1, "weekly"⟩]
            items := [⟨100⟩]
            runs := [{ id := 1, character_id := 1, boss_id := 1
                       cleared_at := ⟨4, 0⟩, week_start := 4, party_size := 1
                       notes := none, is_clear := true }]
            drops := [{ boss_run_id := 1, item_id := 100, quantity := 1 }]
            next_run_id := 2 } :=
  c8_invalid_drops_skipped c8State 7 c8Request ⟨4, 0⟩ ⟨1, 7⟩ ⟨1, "weekly"⟩
    rfl rfl rfl

/-- Filtering commutes with mapping a function that preserves the
predicate. -/
lemma filter_map_of_pred_eq {α : Type} (p : α → Bool) (f : α → α)
    (hf : ∀ s, p (f s) = p s) :
    ∀ l : List α, (l.map f).filter p = (l.filter p).map f := by
  intro l
  induction l with
  | nil => rfl
  | cons s rest ih => cases hp : p s <;> simp [List.filter_cons, hf, hp, ih]

/-- The per-row upsert function keeps every row's (boss, item) pair. -/
lemma statMatches_upsert_fun (b i ss dc : ℕ) (rate : ℚ) (now : ℤ)
    (b' i' : ℕ) (s : DropRateStatsRow) :
    statMatches b' i'
      (if statMatches b i s then
        { s with sample_size := ss, drop_count := dc, drop_rate := rate,
                 last_computed := now }
      else s) = statMatches b' i' s := by
  by_cases hc : statMatches b i s = true
  · rw [if_pos hc]
    rfl
  · rw [if_neg hc]

/-- After an upsert for a pair occurring at most once, that pair's rows
are exactly the freshly written row. -/
lemma upsert_filter_self (stats : List DropRateStatsRow) (b i ss dc : ℕ)
    (rate : ℚ) (now : ℤ)
    (h : stats.countP (statMatches b i) ≤ 1) :
    (upsertStat stats b i ss dc rate now).filter (statMatches b i) =
      [{ boss_id := b, item_id := i, sample_size := ss, drop_count := dc,
         drop_rate := rate, last_computed := now }] := by
  unfold upsertStat
  by_cases hany : stats.any (statMatches b i) = true
  · rw [if_pos hany,
      filter_map_of_pred_eq (statMatches b i) _
        (statMatches_upsert_fun b i ss dc rate now b i)]
    have hlen : (stats.filter (statMatches b i)).length = 1 := by
      have h1 : 0 < stats.countP (statMatches b i) := by
        rw [List.any_eq_true] at hany
        obtain ⟨a, ha, hpa⟩ := hany
        exact List.countP_pos_iff.mpr ⟨a, ha, hpa⟩
      rw [List.countP_eq_length_filter] at h1 h
      omega
    obtain ⟨s₀, hs₀⟩ := List.length_eq_one.mp hlen
    have hmatch : statMatches b i s₀ = true :=
      List.of_mem_filter (hs₀ ▸ List.mem_singleton.mpr rfl)
    rw [hs₀, List.map_singleton, if_pos hmatch]
    simp only [statMatches, Bool.and_eq_true, beq_iff_eq] at hmatch
    cases s₀
    simp_all
  · rw [if_neg hany, List.filter_append]
    have hnil : stats.filter (statMatches b i) = [] := by
      rw [List.filter_eq_nil_iff]
      intro a ha hpa
      exact hany (List.any_eq_true.mpr ⟨a, ha, hpa⟩)
    rw [hnil]
    simp [statMatches]

/-- An upsert for one pair leaves every other pair's rows unchanged. -/
lemma upsert_filter_other (stats : List DropRateStatsRow) (b i ss dc : ℕ)
    (rate : ℚ) (now : ℤ) (b' i' : ℕ) (hne : ¬(b' = b ∧ i' = i)) :
    (upsertStat stats b i ss dc rate now).filter (statMatches b' i') =
      stats.filter (statMatches b' i') := by
  unfold upsertStat
  by_cases hany : stats.any (statMatches b i) = true
  · rw [if_pos hany,
      filter_map_of_pred_eq (statMatches b' i') _
        (statMatches_upsert_fun b i ss dc rate now b' i')]
    have hid : ∀ s ∈ stats.filter (statMatches b' i'),
        (if statMatches b i s then
          ({ s with sample_size := ss, drop_count := dc, drop_rate := rate,
                    last_computed := now } : DropRateStatsRow)
        else s) = s := by
      intro s hs
      have hp' := List.of_mem_filter hs
      simp only [statMatches, Bool.and_eq_true, beq_iff_eq] at hp'
      have hfalse : statMatches b i s = false := by
        by_contra hcon
        rw [Bool.not_eq_false] at hcon
        simp only [statMatches, Bool.and_eq_true, beq_iff_eq] at hcon
        exact hne ⟨by omega, by omega⟩
      rw [hfalse]
      rfl
    calc (stats.filter (statMatches b' i')).map _
        = (stats.filter (statMatches b' i')).map id := List.map_congr_left hid
      _ = stats.filter (statMatches b' i') := List.map_id _
  · rw [if_neg hany, List.filter_append]
    have hrow : statMatches b' i'
        ({ boss_id := b, item_id := i, sample_size := ss, drop_count := dc,
           drop_rate := rate, last_computed := now } : DropRateStatsRow) = false := by
      by_contra hcon
      rw [Bool.not_eq_false] at hcon
      simp only [statMatches, Bool.and_eq_true, beq_iff_eq] at hcon
      exact hne ⟨hcon.1.symm, hcon.2.symm⟩
    simp [hrow]

/-- An upsert preserves at-most-one-row-per-pair. -/
lemma upsert_countP (stats : List DropRateStatsRow) (b i ss dc : ℕ)
    (rate : ℚ) (now : ℤ)
    (h : ∀ b' i', stats.countP (statMatches b' i') ≤ 1) :
    ∀ b' i', (upsertStat stats b i ss dc rate now).countP (statMatches b' i') ≤ 1 := by
  intro b' i'
  rw [List.countP_eq_length_filter]
  by_cases hpair : b' = b ∧ i' = i
  · obtain ⟨rfl, rfl⟩ := hpair
    rw [upsert_filter_self stats b' i' ss dc rate now (h b' i')]
    simp
  · rw [upsert_filter_other stats b i ss dc rate now b' i' hpair,
      ← List.countP_eq_length_filter]
    exact h b' i'

/-- Folding the aggregation step over entries none of which carry a pair
leaves that pair's rows unchanged. -/
lemma fold_filter_untouched (runs : List BossRunRow) (drops : List BossRunDropRow)
    (now : ℤ) :
    ∀ (l : List BossDropTableEntry) (acc : List DropRateStatsRow) (b i : ℕ),
      (∀ e ∈ l, ¬(e.boss_id = b ∧ e.item_id = i)) →
      (l.foldl (computeStep runs drops now) acc).filter (statMatches b i) =
        acc.filter (statMatches b i) := by
  intro l
  induction l with
  | nil => intro acc b i _; rfl
  | cons x xs ih =>
      intro acc b i hl
      rw [List.foldl_cons,
        ih (computeStep runs drops now acc x) b i
          (fun e he => hl e (List.mem_cons_of_mem x he))]
      exact upsert_filter_other acc x.boss_id x.item_id _ _ _ now b i
        (fun hc => hl x (List.mem_cons_self x xs) ⟨hc.1.symm, hc.2.symm⟩)

/-- The aggregation fold preserves at-most-one-row-per-pair. -/
lemma fold_countP (runs : List BossRunRow) (drops : List BossRunDropRow)
    (now : ℤ) :
    ∀ (l : List BossDropTableEntry) (acc : List DropRateStatsRow),
      (∀ b i, acc.countP (statMatches b i) ≤ 1) →
      ∀ b i, (l.foldl (computeStep runs drops now) acc).countP (statMatches b i) ≤ 1 := by
  intro l
  induction l with
  | nil => intro acc h b i; exact h b i
  | cons x xs ih =>
      intro acc h b i
      rw [List.foldl_cons]
      exact ih _ (upsert_countP acc x.boss_id x.item_id _ _ _ now h) b i

/-- After the aggregation fold, a pair occurring in the (pairwise-distinct)
entry list has exactly the canonical computed row. -/
lemma fold_filter_mem (runs : List BossRunRow) (drops : List BossRunDropRow)
    (now : ℤ) :
    ∀ (l : List BossDropTableEntry) (acc : List DropRateStatsRow)
      (e : BossDropTableEntry),
      e ∈ l →
      (l.map (fun x => (x.boss_id, x.item_id))).Nodup →
      (∀ b i, acc.countP (statMatches b i) ≤ 1) →
      (l.foldl (computeStep runs drops now) acc).filter
          (statMatches e.boss_id e.item_id) =
        [computedStat runs drops now e.boss_id e.item_id] := by
  intro l
  induction l with
  | nil => intro acc e he; cases he
  | cons x xs ih =>
      intro acc e he hnd hacc
      rw [List.map_cons, List.nodup_cons] at hnd
      obtain ⟨hx_not, hnd_xs⟩ := hnd
      rw [List.foldl_cons]
      rcases List.mem_cons.mp he with rfl | hexs
      · have hpairs : ∀ e' ∈ xs, ¬(e'.boss_id = e.boss_id ∧ e'.item_id = e.item_id) := by
          intro e' he' hc
          exact hx_not (List.mem_map.mpr ⟨e', he', by rw [hc.1, hc.2]⟩)
        rw [fold_filter_untouched runs drops now xs _ e.boss_id e.item_id hpairs]
        exact upsert_filter_self acc e.boss_id e.item_id _ _ _ now
          (hacc e.boss_id e.item_id)
      · exact ih (computeStep runs drops now acc x) e hexs hnd_xs
          (upsert_countP acc x.boss_id x.item_id _ _ _ now hacc)

/-- C3 -- after `compute_drop_rates`, every (boss, item) pair of the drop
table has exactly one stats row (given the database uniqueness constraints
on `boss_drop_table` pairs and on existing stats rows); when the boss has
no successful clear the row has `sample_size = 0` and `drop_rate = 0`
(not null/NaN), and otherwise `drop_rate = drop_count / sample_size`. -/
theorem c3_aggregator_complete (st : StatsState) (now : ℤ)
    (hdt : (st.drop_table.map (fun e => (e.boss_id, e.item_id))).Nodup)
    (hst : statsUniquePerPair st.stats)
    (e : BossDropTableEntry) (he : e ∈ st.drop_table) :
    (compute_drop_rates st now).stats.filter (statMatches e.boss_id e.item_id) =
      [computedStat st.runs st.drops now e.boss_id e.item_id] ∧
    ((∀ r ∈ st.runs, r.boss_id = e.boss_id → r.is_clear = false) →
      (computedStat st.runs st.drops now e.boss_id e.item_id).sample_size = 0 ∧
      (computedStat st.runs st.drops now e.boss_id e.item_id).drop_rate = 0) ∧
    (0 < sampleSizeFor st.runs e.boss_id →
      (computedStat st.runs st.drops now e.boss_id e.item_id).drop_rate =
        (dropCountFor st.runs st.drops e.boss_id e.item_id : ℚ) /
          (sampleSizeFor st.runs e.boss_id : ℚ)) := by
  refine ⟨fold_filter_mem st.runs st.drops now st.drop_table st.stats e he hdt hst,
    ?_, ?_⟩
  · intro hnone
    have hss : sampleSizeFor st.runs e.boss_id = 0 := by
      unfold sampleSizeFor
      rw [List.length_eq_zero, List.filter_eq_nil_iff]
      intro r hr
      simp only [Bool.and_eq_true, beq_iff_eq, not_and]
      intro hbid
      rw [hnone r hr hbid]
      simp
    exact ⟨hss, by simp [computedStat, hss]⟩
  · intro hpos
    simp [computedStat, hpos]

/-- Witness for C3 at the concrete state: pair (1, 1) gets exactly its
canonical row. -/
theorem c3_aggregator_complete_witness :
    (compute_drop_rates c10State 9).stats.filter (statMatches 1 1) =
      [computedStat c10State.runs c10State.drops 9 1 1] :=
  (c3_aggregator_complete c10State 9 (by decide)
    (fun b i => by simp [c10State]) ⟨1, 1⟩ (by decide)).1

/-- C4 -- running the aggregator twice with no intervening writes leaves
every stats row's boss, item, sample_size, drop_count and drop_rate
identical to the first run's; only `last_computed` can differ. -/
theorem c4_aggregator_idempotent (st : StatsState) (now₁ now₂ : ℤ)
    (hdt : (st.drop_table.map (fun e => (e.boss_id, e.item_id))).Nodup)
    (hst : statsUniquePerPair st.stats) (b i : ℕ) :
    ((compute_drop_rates (compute_drop_rates st now₁) now₂).stats.filter
        (statMatches b i)).map statValues =
      ((compute_drop_rates st now₁).stats.filter (statMatches b i)).map statValues := by
  have hst₁ : statsUniquePerPair (compute_drop_rates st now₁).stats :=
    fun b' i' => fold_countP st.runs st.drops now₁ st.drop_table st.stats hst b' i'
  by_cases hpair : (b, i) ∈ st.drop_table.map (fun e => (e.boss_id, e.item_id))
  · obtain ⟨e, he, hpe⟩ := List.mem_map.mp hpair
    obtain ⟨hb, hi⟩ := Prod.mk.injEq e.boss_id e.item_id b i ▸ hpe
    subst hb
    subst hi
    have h₂ : (compute_drop_rates (compute_drop_rates st now₁) now₂).stats.filter
        (statMatches e.boss_id e.item_id) =
        [computedStat st.runs st.drops now₂ e.boss_id e.item_id] :=
      fold_filter_mem st.runs st.drops now₂ st.drop_table
        (compute_drop_rates st now₁).stats e he hdt hst₁
    have h₁ : (compute_drop_rates st now₁).stats.filter
        (statMatches e.boss_id e.item_id) =
        [computedStat st.runs st.drops now₁ e.boss_id e.item_id] :=
      fold_filter_mem st.runs st.drops now₁ st.drop_table st.stats e he hdt hst
    rw [h₁, h₂]
    simp [statValues, computedStat]
  · have hnm : ∀ e ∈ st.drop_table, ¬(e.boss_id = b ∧ e.item_id = i) := by
      intro e he hc
      exact hpair (List.mem_map.mpr ⟨e, he, by rw [hc.1, hc.2]⟩)
    have h₂ : (compute_drop_rates (compute_drop_rates st now₁) now₂).stats.filter
        (statMatches b i) =
        (compute_drop_rates st now₁).stats.filter (statMatches b i) :=
      fold_filter_untouched st.runs st.drops now₂ st.drop_table
        (compute_drop_rates st now₁).stats b i hnm
    rw [h₂]

/-- Witness for C4 at the concrete state and pair (1, 1). -/
theorem c4_aggregator_idempotent_witness :
    ((compute_drop_rates (compute_drop_rates c10State 1) 2).stats.filter
        (statMatches 1 1)).map statValues =
      ((compute_drop_rates c10State 1).stats.filter (statMatches 1 1)).map statValues :=
  c4_aggregator_idempotent c10State 1 2 (by decide)
    (fun b i => by simp [c10State]) 1 1

/-- C10 -- `sample_size` counts only successful clears while `drop_count`
joins drops to parent runs with no `is_clear` filter, so a drop recorded on
a non-clear run of a boss that also has one clear yields a stored
`drop_rate` of 2.0, strictly above the 0.0–1.0 range the stats model's
docstring documents. -/
theorem c10_over_unity_drop_rate :
    sampleSizeFor c10State.runs 1 = 1 ∧
    dropCountFor c10State.runs c10State.drops 1 1 = 2 ∧
    (compute_drop_rates c10State 9).stats =
      [{ boss_id := 1, item_id := 1, sample_size := 1, drop_count := 2,
         drop_rate := 2, last_computed := 9 }] ∧
    (1 : ℚ) <
      ({ boss_id := 1, item_id := 1, sample_size := 1, drop_count := 2,
         drop_rate := 2, last_computed := 9 } : DropRateStatsRow).drop_rate := by
  refine ⟨rfl, rfl, ?_, by norm_num⟩
  norm_num [compute_drop_rates, c10State, computeStep, upsertStat,
    sampleSizeFor, dropCountFor, statMatches]

/-- Storing the zero bonus is exact. -/
lemma quantize_zero (scale : ℕ) : quantize scale 0 = 0 := by
  unfold quantize pgRoundInt
  norm_num

